import Mathlib

/-!
Verification of the analytics-dashboard logic in streamlit_app.py:
credential store, authenticator, record store, and the filter/aggregation
engine, shallowly embedded over lists.  The SHA-256 digest function
(hashlib, external library) and the pandas date parser (external library)
are abstracted as function parameters; everything else is translated
directly from the source.
-/

/-- A row of the users table (columns username, password, where the
password column stores the hex digest). -/
structure UserRecord where
  username : String
  password : String
deriving DecidableEq, Repr

/-- The users table: an ordered list of rows, as loaded from users.csv. -/
abbrev UserTable := List UserRecord

/-- authenticate from streamlit_app.py lines 25-28: hash the supplied
password, select the rows whose username equals the input and whose
stored password equals the digest, and return whether that selection is
non-empty.  The digest function (hash_password, a call into hashlib) is
passed as the parameter hash. -/
def authenticate (hash : String → String) (username password : String)
    (users : UserTable) : Bool :=
  let hashed_password := hash password
  let user_row := users.filter
    (fun r => r.username == username && r.password == hashed_password)
  !user_row.isEmpty

/-- is_admin from lines 31-32: a literal string comparison. -/
def is_admin (username : String) : Bool :=
  username == "admin"

/-- load_users from lines 11-22.  File I/O is embedded as a state of type
Option UserTable: some t when users.csv exists with content t, none when
it is absent (FileNotFoundError).  The function returns the loaded table
together with the file state after the call: on a missing file it
synthesizes the default admin table and writes it before returning. -/
def load_users (hash : String → String) (fs : Option UserTable) :
    UserTable × Option UserTable :=
  match fs with
  | some users => (users, some users)
  | none =>
      let default_users : UserTable := [⟨"admin", hash "admin"⟩]
      (default_users, some default_users)

/-- Helper: authenticate is true exactly when some row matches both the
username and the digest of the password. -/
theorem authenticate_true_iff (hash : String → String)
    (username password : String) (users : UserTable) :
    authenticate hash username password users = true ↔
      ∃ r ∈ users, r.username = username ∧ r.password = hash password := by
  simp [authenticate, List.isEmpty_iff, List.filter_eq_nil_iff]

/-- C1: authenticate(u, p, T) is true iff T contains a record whose
username equals u exactly and whose stored password hash equals hash(p);
false for every other combination. -/
theorem authenticate_iff_matching_record (hash : String → String)
    (u p : String) (T : UserTable) :
    authenticate hash u p T = true ↔
      ∃ r ∈ T, r.username = u ∧ r.password = hash p :=
  authenticate_true_iff hash u p T

/-- C7: when the credential storage file is absent, load_users returns a
table containing exactly the default record (admin, hash "admin") and
persists that same table before returning; the missing-file case is
handled (the except branch), not fatal. -/
theorem load_users_missing_file (hash : String → String) :
    load_users hash none =
      ([⟨"admin", hash "admin"⟩], some [⟨"admin", hash "admin"⟩]) :=
  rfl

/-- The add-user handler from lines 258-267: if either field is the empty
string (Python falsiness of `not new_username or not new_password`) the
mutation is rejected with an error message; otherwise the new row
(username, hash password) is concatenated onto the users table. -/
def add_user (hash : String → String) (new_username new_password : String)
    (users_data : UserTable) : Except String UserTable :=
  if new_username.isEmpty || new_password.isEmpty then
    .error "Please enter a username and password."
  else
    .ok (users_data ++ [⟨new_username, hash new_password⟩])

/-- Persistence effect of the add-user handler: only a successful add
writes the updated table to users.csv; a rejected add leaves the file
state untouched. -/
def add_user_persist (hash : String → String)
    (new_username new_password : String) (users_data : UserTable)
    (fs : Option UserTable) : Option UserTable :=
  match add_user hash new_username new_password users_data with
  | .error _ => fs
  | .ok updated => some updated

/-- The edit-user handler from lines 279-285: rejected when either new
field is empty; otherwise first every row whose username equals the old
username is renamed to the new username, then every row whose username
equals the NEW username gets its password set to the digest of the new
password. -/
def edit_user (hash : String → String)
    (edit_username new_username_edit new_password_edit : String)
    (users_data : UserTable) : UserTable :=
  if new_username_edit.isEmpty || new_password_edit.isEmpty then
    users_data
  else
    let renamed := users_data.map
      (fun r => if r.username == edit_username then
        ⟨new_username_edit, r.password⟩ else r)
    renamed.map
      (fun r => if r.username == new_username_edit then
        ⟨r.username, hash new_password_edit⟩ else r)

/-- C8: the add-user operation rejects empty username or empty password,
leaving the file state unchanged; with both fields non-empty it appends
the new record with the hashed password (unconditionally in the users
table, hence without any duplicate-username check). -/
theorem add_user_validation (hash : String → String)
    (u p : String) (users : UserTable) (fs : Option UserTable) :
    ((u.isEmpty || p.isEmpty) = true →
        add_user hash u p users = .error "Please enter a username and password." ∧
        add_user_persist hash u p users fs = fs) ∧
    ((u.isEmpty || p.isEmpty) = false →
        add_user hash u p users = .ok (users ++ [⟨u, hash p⟩]) ∧
        add_user_persist hash u p users fs = some (users ++ [⟨u, hash p⟩])) := by
  constructor
  · intro h
    simp [add_user, add_user_persist, h]
  · intro h
    simp [add_user, add_user_persist, h]

/-- Witness for C8 at concrete inputs: an empty password is rejected and
nothing is persisted; a non-empty pair is appended. -/
theorem add_user_validation_witness :
    (add_user (fun s => s) "alice" "" [] =
        .error "Please enter a username and password." ∧
      add_user_persist (fun s => s) "alice" "" [] none = none) ∧
    (add_user (fun s => s) "alice" "pw" [⟨"alice", "old"⟩] =
        .ok [⟨"alice", "old"⟩, ⟨"alice", "pw"⟩] ∧
      add_user_persist (fun s => s) "alice" "pw" [⟨"alice", "old"⟩] none =
        some [⟨"alice", "old"⟩, ⟨"alice", "pw"⟩]) :=
  ⟨(add_user_validation (fun s => s) "alice" "" [] none).1 (by decide),
   (add_user_validation (fun s => s) "alice" "pw" [⟨"alice", "old"⟩] none).2
     (by decide)⟩

/-- C10: a successful add yields exactly the old table with the one new
record appended at the end: the length grows by one, every pre-existing
record keeps its value and position, and the last entry is the new
record. -/
theorem add_user_frame (hash : String → String) (u p : String)
    (users : UserTable) (hu : u.isEmpty = false) (hp : p.isEmpty = false) :
    ∃ updated, add_user hash u p users = .ok updated ∧
      updated = users ++ [⟨u, hash p⟩] ∧
      updated.length = users.length + 1 ∧
      (∀ i, i < users.length → updated[i]? = users[i]?) ∧
      updated[users.length]? = some ⟨u, hash p⟩ := by
  refine ⟨users ++ [⟨u, hash p⟩], ?_, rfl, by simp, ?_, ?_⟩
  · simp [add_user, hu, hp]
  · intro i hi
    rw [List.getElem?_append, if_pos hi]
  · simp

/-- Witness for C10 at a concrete table. -/
theorem add_user_frame_witness :
    ∃ updated, add_user (fun s => s) "bob" "pw" [⟨"admin", "h"⟩] = .ok updated ∧
      updated = [⟨"admin", "h"⟩] ++ [⟨"bob", "pw"⟩] ∧
      updated.length = [(⟨"admin", "h"⟩ : UserRecord)].length + 1 ∧
      (∀ i, i < [(⟨"admin", "h"⟩ : UserRecord)].length →
        updated[i]? = [(⟨"admin", "h"⟩ : UserRecord)][i]?) ∧
      updated[[(⟨"admin", "h"⟩ : UserRecord)].length]? = some ⟨"bob", "pw"⟩ :=
  add_user_frame (fun s => s) "bob" "pw" [⟨"admin", "h"⟩] rfl rfl

/-- C2: on a table with exactly one admin record and no root record,
editing user admin to username root with new password x yields a table
on which authenticate root/x succeeds and authenticate admin/p fails for
every p. -/
theorem edit_admin_to_root (hash : String → String) (users : UserTable)
    (h1 : (users.filter (fun r => r.username == "admin")).length = 1)
    (h2 : (users.filter (fun r => r.username == "root")).length = 0) :
    authenticate hash "root" "x" (edit_user hash "admin" "root" "x" users) = true ∧
    ∀ p, authenticate hash "admin" p (edit_user hash "admin" "root" "x" users) = false := by
  have hedit : edit_user hash "admin" "root" "x" users =
      (users.map (fun r => if r.username == "admin" then
          ⟨"root", r.password⟩ else r)).map
        (fun r => if r.username == "root" then
          ⟨r.username, hash "x"⟩ else r) := rfl
  have husr : ∀ r : UserRecord, r ∈ edit_user hash "admin" "root" "x" users →
      r.username ≠ "admin" := by
    intro r hr
    rw [hedit] at hr
    obtain ⟨s, hsmem, hgs⟩ := List.mem_map.mp hr
    obtain ⟨r0, hr0mem, hfr0⟩ := List.mem_map.mp hsmem
    have hs_username : s.username ≠ "admin" := by
      rw [← hfr0]
      by_cases hc : r0.username == "admin"
      · simp [hc]
      · simp only [hc, if_neg, Bool.false_eq_true, ite_false]
        simpa using hc
    have hpreserve : r.username = s.username := by
      rw [← hgs]
      by_cases hd : s.username == "root" <;> simp [hd]
    rw [hpreserve]
    exact hs_username
  refine ⟨?_, ?_⟩
  · rw [authenticate_true_iff]
    have hne : users.filter (fun r => r.username == "admin") ≠ [] := by
      intro h
      rw [h] at h1
      simp at h1
    obtain ⟨r, hr⟩ := List.exists_mem_of_ne_nil _ hne
    obtain ⟨hrmem, hradmin⟩ := List.mem_filter.mp hr
    refine ⟨⟨"root", hash "x"⟩, ?_, rfl, rfl⟩
    rw [hedit]
    exact List.mem_map.mpr ⟨⟨"root", r.password⟩,
      List.mem_map.mpr ⟨r, hrmem, by simp [hradmin]⟩, by simp⟩
  · intro p
    have hnot : ¬ (authenticate hash "admin" p
        (edit_user hash "admin" "root" "x" users) = true) := by
      rw [authenticate_true_iff]
      rintro ⟨r, hrmem, hru, -⟩
      exact husr r hrmem hru
    simpa using hnot

/-- Witness for C2: the one-admin table satisfies the hypotheses and the
scenario, with the digest function instantiated to string identity. -/
theorem edit_admin_to_root_witness :
    authenticate (fun s => s) "root" "x"
      (edit_user (fun s => s) "admin" "root" "x" [⟨"admin", "admin"⟩]) = true ∧
    ∀ p, authenticate (fun s => s) "admin" p
      (edit_user (fun s => s) "admin" "root" "x" [⟨"admin", "admin"⟩]) = false :=
  edit_admin_to_root (fun s => s) [⟨"admin", "admin"⟩] (by decide) (by decide)

/-- A parsed sales record (one row of revtee_data.csv after load_data):
the Date column becomes an Option (none models pandas NaT for an
unparsable date, the coercion of errors to missing), dates themselves
are embedded as integers with their order. -/
structure SalesRecord where
  date : Option Int
  produits_vendus : String
  ventes : Int
  visiteurs : Int
  conversions : Int
  revenus : ℚ
deriving DecidableEq, Repr

/-- A raw sales row before date parsing: the Date column is still text. -/
structure RawRecord where
  dateStr : String
  produits_vendus : String
  ventes : Int
  visiteurs : Int
  conversions : Int
  revenus : ℚ
deriving DecidableEq, Repr

/-- Parse one raw row: only the Date column changes, via the external
date parser (pd.to_datetime with errors coerce, passed as the parameter
to_datetime, which returns none exactly on unparsable input). -/
def parseRow (to_datetime : String → Option Int) (r : RawRecord) :
    SalesRecord :=
  ⟨to_datetime r.dateStr, r.produits_vendus, r.ventes, r.visiteurs,
    r.conversions, r.revenus⟩

/-- load_data from lines 36-39: read all rows and coerce the Date column;
every row is retained, parse failures only make its date missing. -/
def load_data (to_datetime : String → Option Int) (raw : List RawRecord) :
    List SalesRecord :=
  raw.map (parseRow to_datetime)

/-- Date-range test as pandas evaluates it on the Date column: a missing
date (NaT) compares false against any bound; a present date must lie in
the inclusive range. -/
def dateInRange (d : Option Int) (lo hi : Int) : Bool :=
  match d with
  | none => false
  | some x => decide (lo ≤ x) && decide (x ≤ hi)

/-- filtered_data from lines 102-113: keep the rows whose Date is within
the inclusive selected range; when the sentinel All is among the selected
products the product column is not filtered, otherwise only rows whose
product is a member of the selection are kept. -/
def filtered_data (data : List SalesRecord) (date_range : Int × Int)
    (selected_products : List String) : List SalesRecord :=
  if selected_products.contains "All" then
    data.filter (fun r => dateInRange r.date date_range.1 date_range.2)
  else
    data.filter (fun r => dateInRange r.date date_range.1 date_range.2 &&
      selected_products.contains r.produits_vendus)

/-- The four KPIs computed in the metric blocks (named after the local
variables of lines 125-137 and 147-160). -/
structure KPISet where
  total_sales : Int
  total_visitors : Int
  conversion_rate : ℚ
  total_revenue : ℚ
deriving DecidableEq, Repr

/-- The KPI computation of lines 125-137 (and identically 147-160 for a
per-product subset): column sums, and a conversion rate that divides by
the visitor total only under the guard total_visitors > 0. -/
def aggregate (records : List SalesRecord) : KPISet :=
  let total_sales : Int := (records.map (fun r => r.ventes)).sum
  let total_visitors : Int := (records.map (fun r => r.visiteurs)).sum
  let conversion_rate : ℚ :=
    if total_visitors > 0 then
      (((records.map (fun r => r.conversions)).sum : Int) : ℚ) /
        (total_visitors : ℚ) * 100
    else 0
  let total_revenue : ℚ := (records.map (fun r => r.revenus)).sum
  ⟨total_sales, total_visitors, conversion_rate, total_revenue⟩

/-- C3: aggregate over the empty subset yields all-zero KPIs; its visitor
total is 0, so the guard total_visitors > 0 selects the constant-0 branch
for the conversion rate and the division is never taken. -/
theorem aggregate_empty :
    aggregate [] = ⟨0, 0, 0, 0⟩ ∧
    (aggregate []).total_visitors = 0 ∧
    ¬ ((0 : Int) > 0) := by
  refine ⟨by decide, by decide, by decide⟩

/-- Helper: filtering twice with one predicate equals filtering once. -/
theorem filter_idem {α : Type} (p : α → Bool) (l : List α) :
    (l.filter p).filter p = l.filter p :=
  List.filter_eq_self.mpr (fun _ ha => (List.mem_filter.mp ha).2)

/-- C4: filtered_data is idempotent: filtering an already-filtered table
with the same date range and product selection changes nothing. -/
theorem filtered_data_idempotent (R : List SalesRecord)
    (d : Int × Int) (p : List String) :
    filtered_data (filtered_data R d p) d p = filtered_data R d p := by
  by_cases h : "All" ∈ p <;> simp [filtered_data, h, filter_idem]

/-- C9: the output of filtered_data is a sublist of its input: every
output record occurs in the input in the same relative order, and no
record is created, duplicated or modified. -/
theorem filtered_data_sublist (R : List SalesRecord)
    (d : Int × Int) (p : List String) :
    (filtered_data R d p).Sublist R := by
  unfold filtered_data
  split
  · exact List.filter_sublist _
  · exact List.filter_sublist _

/-- Relabel the product column of one record, leaving all other columns
unchanged; used to state that the All branch ignores product values. -/
def relabel (f : String → String) (r : SalesRecord) : SalesRecord :=
  { r with produits_vendus := f r.produits_vendus }

/-- C5: with the sentinel All among the selected products, filtered_data
returns exactly the inclusive date-range subset, and the result is
independent of the product values: relabelling every product commutes
with the filter. -/
theorem filtered_data_all_branch (R : List SalesRecord)
    (dr : Int × Int) (sel : List String) (h : "All" ∈ sel) :
    filtered_data R dr sel =
      R.filter (fun r => dateInRange r.date dr.1 dr.2) ∧
    ∀ f : String → String,
      filtered_data (R.map (relabel f)) dr sel =
        (filtered_data R dr sel).map (relabel f) := by
  have hAll : ∀ l : List SalesRecord, filtered_data l dr sel =
      l.filter (fun r => dateInRange r.date dr.1 dr.2) := by
    intro l
    simp [filtered_data, h]
  refine ⟨hAll R, ?_⟩
  intro f
  rw [hAll, hAll]
  induction R with
  | nil => rfl
  | cons a t ih =>
      by_cases ha : dateInRange a.date dr.1 dr.2 <;>
        simp [relabel, List.filter_cons, ha, ih]

/-- Witness for C5 on a two-record table: one date inside the range, one
outside; the product relabel appends a marker to every product name. -/
theorem filtered_data_all_branch_witness :
    filtered_data [⟨some 5, "Tee", 1, 2, 3, 4⟩, ⟨some 99, "Mug", 1, 2, 3, 4⟩]
        (0, 10) ["All"] =
      List.filter (fun r => dateInRange r.date (0, 10).1 (0, 10).2)
        [⟨some 5, "Tee", 1, 2, 3, 4⟩, ⟨some 99, "Mug", 1, 2, 3, 4⟩] ∧
    filtered_data
        (List.map (relabel (fun s => s ++ "2"))
          [⟨some 5, "Tee", 1, 2, 3, 4⟩, ⟨some 99, "Mug", 1, 2, 3, 4⟩])
        (0, 10) ["All"] =
      List.map (relabel (fun s => s ++ "2"))
        (filtered_data [⟨some 5, "Tee", 1, 2, 3, 4⟩, ⟨some 99, "Mug", 1, 2, 3, 4⟩]
          (0, 10) ["All"]) :=
  ⟨(filtered_data_all_branch _ (0, 10) ["All"] (by decide)).1,
   (filtered_data_all_branch _ (0, 10) ["All"] (by decide)).2 (fun s => s ++ "2")⟩

/-- C6: a raw row whose date fails to parse is retained by load_data (its
parsed image is in the loaded table) yet its parsed image never appears
in the output of filtered_data, for any date range and any product
selection. -/
theorem missing_date_excluded (to_datetime : String → Option Int)
    (raw : List RawRecord) (dr : Int × Int) (sel : List String)
    (x : RawRecord) (hx : x ∈ raw) (hd : to_datetime x.dateStr = none) :
    parseRow to_datetime x ∈ load_data to_datetime raw ∧
    parseRow to_datetime x ∉ filtered_data (load_data to_datetime raw) dr sel := by
  refine ⟨List.mem_map_of_mem _ hx, ?_⟩
  intro hmem
  have hpred : dateInRange (parseRow to_datetime x).date dr.1 dr.2 = false := by
    show dateInRange (to_datetime x.dateStr) dr.1 dr.2 = false
    rw [hd]
    rfl
  unfold filtered_data at hmem
  split at hmem
  · have h2 := (List.mem_filter.mp hmem).2
    rw [hpred] at h2
    exact Bool.false_ne_true h2
  · have h2 := (List.mem_filter.mp hmem).2
    rw [hpred] at h2
    simp at h2

/-- Witness for C6: a one-row table whose date never parses, against a
non-trivial range and the All selection. -/
theorem missing_date_excluded_witness :
    parseRow (fun _ => none) ⟨"not-a-date", "Tee", 5, 20, 2, 500⟩ ∈
      load_data (fun _ => none) [⟨"not-a-date", "Tee", 5, 20, 2, 500⟩] ∧
    parseRow (fun _ => none) ⟨"not-a-date", "Tee", 5, 20, 2, 500⟩ ∉
      filtered_data
        (load_data (fun _ => none) [⟨"not-a-date", "Tee", 5, 20, 2, 500⟩])
        (0, 10) ["All"] :=
  missing_date_excluded (fun _ => none) [⟨"not-a-date", "Tee", 5, 20, 2, 500⟩]
    (0, 10) ["All"] ⟨"not-a-date", "Tee", 5, 20, 2, 500⟩
    (List.mem_singleton.mpr rfl) rfl
